import Mathlib

/-!
Verification of the AiXopenscad repository services against its specification.

The JavaScript services are shallowly embedded as Lean functions over `String`
and `List Char`.  Regular-expression tests from the source are translated into
dedicated character-list matchers reproducing the (backtracking) semantics of
the concrete patterns used by the code.
-/

set_option maxRecDepth 4000

/-! ## JS string primitives -/

/-- Character class of the JavaScript regex `\s` (whitespace). -/
def isJsWs (c : Char) : Bool :=
  c = ' ' || c = '\t' || c = '\n' || c = '\r' || c = '\x0B' || c = '\x0C' ||
  c.toNat = 0xA0 || c.toNat = 0x1680 ||
  (0x2000 ≤ c.toNat && c.toNat ≤ 0x200A) ||
  c.toNat = 0x2028 || c.toNat = 0x2029 || c.toNat = 0x202F ||
  c.toNat = 0x205F || c.toNat = 0x3000 || c.toNat = 0xFEFF

/-- Character class of the JavaScript regex `\w` (word character). -/
def isWordChar (c : Char) : Bool :=
  (('a' ≤ c && c ≤ 'z') || ('A' ≤ c && c ≤ 'Z') || c.isDigit || c = '_')

/-- Consume the regex `\s*` greedily (safe here: in every pattern below the
character required after `\s*` is never itself whitespace). -/
def dropWs : List Char → List Char
  | [] => []
  | c :: cs => if isJsWs c then dropWs cs else c :: cs

/-- Match a literal character sequence at the head of the input, returning the
rest on success. -/
def takeLit : List Char → List Char → Option (List Char)
  | [], s => some s
  | _ :: _, [] => none
  | l :: ls, c :: cs => if c = l then takeLit ls cs else none

/-- Unanchored regex test: try the matcher at every start position
(JavaScript `re.test(s)` semantics for the patterns embedded here). -/
def scanTest (p : List Char → Bool) : List Char → Bool
  | [] => p []
  | c :: cs => p (c :: cs) || scanTest p cs

/-- Substring containment over character lists. -/
def isInfixL (pat : List Char) (s : List Char) : Bool :=
  scanTest (fun t => (takeLit pat t).isSome) s

/-- JavaScript `s.includes(sub)` (plain substring containment). -/
def includes (s sub : String) : Bool :=
  isInfixL sub.data s.data

/-- JavaScript `code.split('\n')` (empty segments preserved). -/
def splitLines : List Char → List (List Char)
  | [] => [[]]
  | c :: cs =>
    if c = '\n' then [] :: splitLines cs
    else
      match splitLines cs with
      | l :: ls => (c :: l) :: ls
      | [] => [[c]]

def digitsToNat (ds : List Char) : Nat :=
  ds.foldl (fun a c => 10 * a + (c.toNat - '0'.toNat)) 0

/-- JavaScript `lines.join('\n')`. -/
def joinLines : List String → String
  | [] => ""
  | [l] => l
  | l :: ls => l ++ "\n" ++ joinLines ls

/-! ## Regex matchers used by GeometryValidator (src/unnamed/part_003) -/

def litEps : List Char := "eps".data
def litDifference : List Char := "difference".data
def litTranslate : List Char := "translate".data
def litMinusEps : List Char := "-eps".data
def litLinearExtrude : List Char := "linear_extrude".data
def litRotateExtrude : List Char := "rotate_extrude".data
def litDollarFn : List Char := "$fn".data

/-- Matcher for `/eps\s*=\s*[\d.]+\s*;/` at the current position. -/
def matchEpsDefAt (s : List Char) : Bool :=
  match takeLit litEps s with
  | none => false
  | some r1 =>
    match dropWs r1 with
    | '=' :: r2 =>
      let r3 := dropWs r2
      let ds := r3.takeWhile (fun c => c.isDigit || c = '.')
      if ds.isEmpty then false
      else
        match dropWs (r3.dropWhile (fun c => c.isDigit || c = '.')) with
        | ';' :: _ => true
        | _ => false
    | _ => false

/-- `epsDefinition.test(code)` for `/eps\s*=\s*[\d.]+\s*;/`.
Note the pattern has no word boundary: `"steps = 5;"` matches. -/
def testEpsDef (s : List Char) : Bool := scanTest matchEpsDefAt s

/-- Matcher for `/difference\s*\(\s*\)\s*\{/` at the current position. -/
def matchDiffAt (s : List Char) : Bool :=
  match takeLit litDifference s with
  | none => false
  | some r1 =>
    match dropWs r1 with
    | '(' :: r2 =>
      match dropWs r2 with
      | ')' :: r3 =>
        match dropWs r3 with
        | '{' :: _ => true
        | _ => false
      | _ => false
    | _ => false

/-- `code.match(differencePattern)` yields at least one match. -/
def testDiffBlock (s : List Char) : Bool := scanTest matchDiffAt s

/-- Tail of the epsilon-usage pattern: `[^\]]*\]\s*\)` after `-eps`. -/
def afterEps : List Char → Bool
  | [] => false
  | c :: cs =>
    if c = ']' then
      match dropWs cs with
      | ')' :: _ => true
      | _ => false
    else afterEps cs

/-- Search `[^\]]*-eps[^\]]*\]\s*\)` inside the bracket of the usage pattern. -/
def epsInner : List Char → Bool
  | [] => false
  | c :: cs =>
    if c = ']' then false
    else
      (match takeLit litMinusEps (c :: cs) with
       | some r => afterEps r
       | none => false) || epsInner cs

/-- Matcher for `/translate\s*\(\s*\[[^\]]*-eps[^\]]*\]\s*\)/` at the
current position. -/
def matchTranslateAt (s : List Char) : Bool :=
  match takeLit litTranslate s with
  | none => false
  | some r1 =>
    match dropWs r1 with
    | '(' :: r2 =>
      match dropWs r2 with
      | '[' :: r3 => epsInner r3
      | _ => false
    | _ => false

def testEpsUsage (s : List Char) : Bool := scanTest matchTranslateAt s

/-! ## Validation findings (the `{type, message, severity, fix}` objects) -/

structure Finding where
  type : String
  message : String
  severity : String
  fix : String
deriving DecidableEq, Repr

structure CheckResult where
  valid : Bool
  errors : List Finding
  warnings : List Finding
deriving DecidableEq, Repr

structure ValidationResult where
  valid : Bool
  warnings : List Finding
  errors : List Finding
deriving DecidableEq, Repr

/-- `checkEpsilonUsage` from GeometryValidator (src/unnamed/part_003:66-103). -/
def checkEpsilonUsage (code : String) : CheckResult :=
  let hasEpsDefinition := testEpsDef code.data
  let hasDifferences := testDiffBlock code.data
  if hasDifferences then
    if !hasEpsDefinition then
      { valid := false
        errors := [{ type := "MISSING_EPSILON_DEFINITION"
                     message := "Epsilon (eps) not defined. Add \"eps = 0.01;\" at the top of your code."
                     severity := "error"
                     fix := "Add this line at the beginning: eps = 0.01;" }]
        warnings := [] }
    else if !testEpsUsage code.data then
      { valid := true
        errors := []
        warnings := [{ type := "EPSILON_NOT_USED"
                       message := "Epsilon defined but not used in difference() operations."
                       severity := "warning"
                       fix := "Use eps in translate() for subtracted objects: translate([x,y,-eps])" }] }
    else
      { valid := true, errors := [], warnings := [] }
  else
    { valid := true, errors := [], warnings := [] }

/-! ## checkDimensions (src/unnamed/part_003:108-146)

The number scan embeds `/\b(\d+\.?\d*)\b/g` with JavaScript backtracking
semantics, including the fallback where a trailing `.` or the whole fraction
is dropped to satisfy the final word boundary.  A matched literal
`I.F` (integer digits `I`, fraction digits `F`) is kept in exact decimal
form; its value is `I + F / 10 ^ |F|`.  (JavaScript `parseFloat` rounds the
value to binary64; the 0.01/10000 threshold comparisons below agree with the
exact-value comparisons for these decimal literals.) -/

/-- An exactly-represented decimal literal `int + fracNum / 10 ^ fracLen`. -/
structure NumLit where
  int : Nat
  fracNum : Nat
  fracLen : Nat
deriving DecidableEq, Repr

/-- Rational value of a scanned literal (`parseFloat` result, exactly). -/
def NumLit.val (n : NumLit) : ℚ :=
  (n.int : ℚ) + (n.fracNum : ℚ) / (10 : ℚ) ^ n.fracLen

/-- `n > 0 && n < 0.01` on the exact value (kernel-computable form). -/
def NumLit.isTooSmall (n : NumLit) : Bool :=
  decide (0 < n.fracNum) && decide (n.int = 0) && decide (100 * n.fracNum < 10 ^ n.fracLen)

/-- `n > 10000` on the exact value (kernel-computable form). -/
def NumLit.isTooLarge (n : NumLit) : Bool :=
  decide (10000 < n.int) || (decide (n.int = 10000) && decide (0 < n.fracNum))

/-- Attempt a `\b(\d+\.?\d*)\b` match at the current position given the
preceding character (`none` = start of input).  On success returns the
parsed literal, the last character of the matched text, and the rest of the
input after the match. -/
def numMatchAt (prev : Option Char) (s : List Char) : Option (NumLit × Char × List Char) :=
  let boundaryBefore := match prev with
    | none => true
    | some p => !isWordChar p
  if !boundaryBefore then none
  else
    match s with
    | [] => none
    | c :: _ =>
      if !c.isDigit then none
      else
        let I := s.takeWhile Char.isDigit
        let rest0 := s.dropWhile Char.isDigit
        let iv := digitsToNat I
        let lastI := I.getLastD '0'
        match rest0 with
        | '.' :: rest1 =>
          let F := rest1.takeWhile Char.isDigit
          let rest2 := rest1.dropWhile Char.isDigit
          if F.isEmpty then
            -- `\d+\.` then `\b` fails after the dot unless a word char
            -- follows; on failure the optional dot is dropped and `\d+`
            -- alone matches.
            match rest1 with
            | d :: _ => if isWordChar d then some (⟨iv, 0, 0⟩, '.', rest1)
                        else some (⟨iv, 0, 0⟩, lastI, rest0)
            | [] => some (⟨iv, 0, 0⟩, lastI, rest0)
          else
            match rest2 with
            | [] => some (⟨iv, digitsToNat F, F.length⟩, F.getLastD '0', rest2)
            | d :: _ =>
              if !isWordChar d then some (⟨iv, digitsToNat F, F.length⟩, F.getLastD '0', rest2)
              else
                -- boundary after the fraction fails; backtrack to `\d+\.`
                -- whose trailing boundary (dot before digit) succeeds
                some (⟨iv, 0, 0⟩, '.', rest1)
        | _ =>
          match rest0 with
          | [] => some (⟨iv, 0, 0⟩, lastI, rest0)
          | d :: _ => if isWordChar d then none else some (⟨iv, 0, 0⟩, lastI, rest0)

/-- The `while ((match = numberPattern.exec(code)) !== null)` scan. -/
def scanNumbersAux (prev : Option Char) : Nat → List Char → List NumLit
  | 0, _ => []
  | _, [] => []
  | fuel + 1, c :: cs =>
    match numMatchAt prev (c :: cs) with
    | some (v, lastC, rest) => v :: scanNumbersAux (some lastC) fuel rest
    | none => scanNumbersAux (some c) fuel cs

def scanNumbers (code : String) : List NumLit :=
  scanNumbersAux none (code.data.length + 1) code.data

/-- `checkDimensions` (warnings only). -/
def checkDimensions (code : String) : List Finding :=
  let numbers := scanNumbers code
  let tooSmall := numbers.filter NumLit.isTooSmall
  let tooLarge := numbers.filter NumLit.isTooLarge
  (if tooSmall.length > 0 then
    [{ type := "DIMENSION_TOO_SMALL"
       message := "Found " ++ toString tooSmall.length ++ " dimension(s) < 0.01. This may cause CGAL precision errors."
       severity := "warning"
       fix := "Use dimensions >= 0.1 for reliable geometry" }]
   else []) ++
  (if tooLarge.length > 0 then
    [{ type := "DIMENSION_TOO_LARGE"
       message := "Found " ++ toString tooLarge.length ++ " dimension(s) > 10000. This may cause numerical issues."
       severity := "warning"
       fix := "Keep dimensions <= 1000 for best results" }]
   else [])

/-! ## checkBooleanNesting (src/unnamed/part_003:151-183) -/

def booleanOpsOpen : List (List Char) :=
  ["difference(".data, "union(".data, "intersection(".data]

/-- The inner `for (const op of booleanOps)` loop of one line: increment the
depth once per boolean-operation name the line contains, updating the
running maximum after each increment. -/
def nestOpsFold (line : List Char) (st : Nat × Nat) : Nat × Nat :=
  booleanOpsOpen.foldl
    (fun st op => if isInfixL op line then (st.1 + 1, max st.2 (st.1 + 1)) else st)
    st

/-- One line of the depth walk: ops first, then
`currentDepth = Math.max(0, currentDepth - closingBraces)` (truncated
subtraction on `Nat` is exactly the floor at zero). -/
def nestLineStep (st : Nat × Nat) (line : List Char) : Nat × Nat :=
  let st1 := nestOpsFold line st
  (st1.1 - line.count '}', st1.2)

def maxNestDepth (code : String) : Nat :=
  ((splitLines code.data).foldl nestLineStep (0, 0)).2

def checkBooleanNesting (code : String) : List Finding :=
  let maxDepth := maxNestDepth code
  if maxDepth > 3 then
    [{ type := "DEEP_BOOLEAN_NESTING"
       message := "Boolean operation nesting depth is " ++ toString maxDepth ++ " (recommended: <= 3)."
       severity := "warning"
       fix := "Simplify by breaking into separate modules or using intermediate variables" }]
  else []

/-! ## checkDimensionality (src/unnamed/part_003:188-224) -/

/-- Matcher for `new RegExp("\\b" + p + "\\s*\\(")` at the current position
(the leading `\b` is checked against the preceding character). -/
def wordCallAt (name : List Char) (prev : Option Char) (s : List Char) : Bool :=
  (match prev with
   | none => true
   | some p => !isWordChar p) &&
  (match takeLit name s with
   | some r1 =>
     match dropWs r1 with
     | '(' :: _ => true
     | _ => false
   | none => false)

/-- Unanchored test threading the previous character for `\b`. -/
def scanTestPrev (p : Option Char → List Char → Bool) : Option Char → List Char → Bool
  | prev, [] => p prev []
  | prev, c :: cs => p prev (c :: cs) || scanTestPrev p (some c) cs

def testWordCall (name : List Char) (code : String) : Bool :=
  scanTestPrev (wordCallAt name) none code.data

/-- Matcher for a `\b name \b` occurrence (used by
`/\b(linear_extrude|rotate_extrude)\b/`). -/
def wordBothAt (name : List Char) (prev : Option Char) (s : List Char) : Bool :=
  (match prev with
   | none => true
   | some p => !isWordChar p) &&
  (match takeLit name s with
   | some r1 =>
     match r1 with
     | [] => true
     | d :: _ => !isWordChar d
   | none => false)

def testWordBoth (name : List Char) (code : String) : Bool :=
  scanTestPrev (wordBothAt name) none code.data

/-- Matcher for `/linear_extrude\s*\([^)]*\)\s*\{\s*;\s*\}/` at the current
position. -/
def matchEmptyExtrudeAt (s : List Char) : Bool :=
  match takeLit litLinearExtrude s with
  | none => false
  | some r1 =>
    match dropWs r1 with
    | '(' :: r2 =>
      match (r2.dropWhile (fun c => c ≠ ')')) with
      | ')' :: r3 =>
        match dropWs r3 with
        | '{' :: r4 =>
          match dropWs r4 with
          | ';' :: r5 =>
            match dropWs r5 with
            | '}' :: _ => true
            | _ => false
          | _ => false
        | _ => false
      | _ => false
    | _ => false

def testEmptyExtrusion (code : String) : Bool :=
  scanTest matchEmptyExtrudeAt code.data

def twoDPrimitives : List (List Char) :=
  ["circle".data, "square".data, "polygon".data, "text".data]

def threeDPrimitives : List (List Char) :=
  ["cube".data, "cylinder".data, "sphere".data, "cyl".data, "cuboid".data,
   "torus".data, "rect_tube".data, "tube".data]

def checkDimensionality (code : String) : List Finding :=
  let has2D := twoDPrimitives.any (fun p => testWordCall p code)
  let has3D := threeDPrimitives.any (fun p => testWordCall p code)
  let hasExtrusion := testWordBoth litLinearExtrude code || testWordBoth litRotateExtrude code
  (if has2D && has3D && !hasExtrusion then
    [{ type := "DIMENSIONALITY_MIXING"
       message := "Detected both 2D and 3D primitives without extrusions. This often causes \"Scaling a 2D object with 0\" errors."
       severity := "warning"
       fix := "Wrap 2D objects (circle, square, etc.) in linear_extrude() or rotate_extrude()" }]
   else []) ++
  (if testEmptyExtrusion code then
    [{ type := "EMPTY_EXTRUSION"
       message := "Detected linear_extrude() with no children."
       severity := "warning"
       fix := "Add a 2D object (like circle or square) inside the extrusion braces" }]
   else [])

/-! ## checkFnSpecification (src/unnamed/part_003:229-256) -/

/-- One match of `new RegExp(op + "\\s*\\([^)]*\\)")` at the current
position: returns the matched text and the rest. -/
def matchCallAt (op : List Char) (s : List Char) : Option (List Char × List Char) :=
  match takeLit op s with
  | none => none
  | some r1 =>
    let ws := r1.takeWhile isJsWs
    match r1.dropWhile isJsWs with
    | '(' :: r3 =>
      let inner := r3.takeWhile (fun c => c ≠ ')')
      match r3.dropWhile (fun c => c ≠ ')') with
      | ')' :: r5 => some (op ++ ws ++ '(' :: inner ++ [')'], r5)
      | _ => none
    | _ => none

/-- `code.match(opPattern)` with the global flag: the left-to-right
non-overlapping match list. -/
def collectCalls (op : List Char) : Nat → List Char → List (List Char)
  | 0, _ => []
  | _, [] => []
  | fuel + 1, c :: cs =>
    match matchCallAt op (c :: cs) with
    | some (m, rest) => m :: collectCalls op fuel rest
    | none => collectCalls op fuel cs

/-- Matcher for `/\$fn\s*=/` at the current position. -/
def matchFnAssignAt (s : List Char) : Bool :=
  match takeLit litDollarFn s with
  | none => false
  | some r1 =>
    match dropWs r1 with
    | '=' :: _ => true
    | _ => false

def testFnAssign (m : List Char) : Bool := scanTest matchFnAssignAt m

/-- Per-primitive body of the `for (const op of curveOps)` loop: one warning
if some call of the primitive lacks `$fn` in its own argument list. -/
def fnWarningFor (op : String) (code : String) : List Finding :=
  let ms := collectCalls op.data (code.data.length + 1) code.data
  if ms.any (fun m => !testFnAssign m) then
    [{ type := "MISSING_FN"
       message := op ++ "() found without $fn specification. May result in faceted appearance."
       severity := "info"
       fix := "Add $fn parameter: " ++ op ++ "(..., $fn=50)" }]
  else []

def checkFnSpecification (code : String) : List Finding :=
  fnWarningFor "cylinder" code ++ fnWarningFor "sphere" code

/-! ## validate (src/unnamed/part_003:29-61) -/

def validate (code : String) : ValidationResult :=
  let epsCheck := checkEpsilonUsage code
  { valid := epsCheck.valid
    warnings := epsCheck.warnings ++ checkDimensions code ++ checkBooleanNesting code ++
                checkFnSpecification code ++ checkDimensionality code
    errors := epsCheck.errors }

/-! ## suggestFixes (src/unnamed/part_003:261-282) -/

structure FixResult where
  fixedCode : String
  fixes : List String
deriving DecidableEq, Repr

def litEpsAssign : String := "eps ="
def litFnAssign : String := "$fn ="

def suggestFixes (code : String) (validationResult : ValidationResult) : FixResult :=
  let epsApply :=
    validationResult.errors.any (fun e => e.type = "MISSING_EPSILON_DEFINITION") &&
    !(includes code litEpsAssign)
  let fixedCode1 := if epsApply then "eps = 0.01;\n\n" ++ code else code
  let fixes1 : List String := if epsApply then ["Added epsilon definition"] else []
  let fnApply :=
    validationResult.warnings.any (fun w => w.type = "MISSING_FN") &&
    !(includes code litFnAssign)
  let fixedCode2 := if fnApply then "$fn = 50;\n" ++ fixedCode1 else fixedCode1
  let fixes2 := fixes1 ++ (if fnApply then ["Added global $fn specification"] else [])
  { fixedCode := fixedCode2, fixes := fixes2 }

/-! ## categorizeError (src/unnamed/part_005:122-157 and
src/src/services/SupabaseService.js:292-332)

JavaScript `if (!errorLog) return 'UNKNOWN'` treats the empty string, `null`
and `undefined` alike; an absent log is modelled as `""`. -/

def categorizeError (errorLog : String) : String :=
  if errorLog = "" then "UNKNOWN"
  else if includes errorLog ("CGAL error: assertion violation") ||
          includes errorLog ("e_below != SHalfedge_handle()") then "CGAL_ASSERTION_VIOLATION"
  else if includes errorLog ("Current top level object is empty") then "EMPTY_GEOMETRY"
  else if includes errorLog ("non-manifold") || includes errorLog ("Non-manifold") then "NON_MANIFOLD"
  else if includes errorLog ("syntax error") || includes errorLog ("Parse error") then "SYNTAX_ERROR"
  else if includes errorLog ("undefined variable") || includes errorLog ("unknown variable") then "UNDEFINED_VARIABLE"
  else if includes errorLog ("Can't open include file") || includes errorLog ("No such file") then "FILE_NOT_FOUND"
  else "GENERAL_ERROR"

/-- The `SupabaseService.js` variant: identical except for an additional
`DIMENSIONALITY_MIXING` category checked just before the fallback. -/
def categorizeErrorSupabase (errorLog : String) : String :=
  if errorLog = "" then "UNKNOWN"
  else if includes errorLog ("CGAL error: assertion violation") ||
          includes errorLog ("e_below != SHalfedge_handle()") then "CGAL_ASSERTION_VIOLATION"
  else if includes errorLog ("Current top level object is empty") then "EMPTY_GEOMETRY"
  else if includes errorLog ("non-manifold") || includes errorLog ("Non-manifold") then "NON_MANIFOLD"
  else if includes errorLog ("syntax error") || includes errorLog ("Parse error") then "SYNTAX_ERROR"
  else if includes errorLog ("undefined variable") || includes errorLog ("unknown variable") then "UNDEFINED_VARIABLE"
  else if includes errorLog ("Can't open include file") || includes errorLog ("No such file") then "FILE_NOT_FOUND"
  else if includes errorLog ("Scaling a 2D object with 0") || includes errorLog ("Empty extrusion") then "DIMENSIONALITY_MIXING"
  else "GENERAL_ERROR"

/-- Ordered classification rules as stated by the specification claim:
each rule is the predicate of one `else if` stage paired with its kind. -/
def claimRules : List ((String → Bool) × String) :=
  [(fun log => includes log ("CGAL error: assertion violation") ||
               includes log ("e_below != SHalfedge_handle()"), "CGAL_ASSERTION_VIOLATION"),
   (fun log => includes log ("Current top level object is empty"), "EMPTY_GEOMETRY"),
   (fun log => includes log ("non-manifold") || includes log ("Non-manifold"), "NON_MANIFOLD"),
   (fun log => includes log ("syntax error") || includes log ("Parse error"), "SYNTAX_ERROR"),
   (fun log => includes log ("undefined variable") || includes log ("unknown variable"), "UNDEFINED_VARIABLE"),
   (fun log => includes log ("Can't open include file") || includes log ("No such file"), "FILE_NOT_FOUND")]

/-- First-match-wins evaluation of an ordered rule list. -/
def firstMatch (log : String) : List ((String → Bool) × String) → String
  | [] => "GENERAL_ERROR"
  | r :: rs => if r.1 log then r.2 else firstMatch log rs

/-- Modelled from the claim C4 wording: the classifier as the claim states
it — the fixed enumeration `CGAL_ASSERTION_VIOLATION, EMPTY_GEOMETRY,
NON_MANIFOLD, SYNTAX_ERROR, UNDEFINED_VARIABLE, FILE_NOT_FOUND, else
GENERAL_ERROR`, checked in order, with an empty/absent log giving
`UNKNOWN`. -/
def claimClassify (log : String) : String :=
  if log = "" then "UNKNOWN" else firstMatch log claimRules

/-- The SupabaseService variant additionally recognizes
`DIMENSIONALITY_MIXING` just before the fallback. -/
def claimRulesSupabase : List ((String → Bool) × String) :=
  claimRules ++
  [(fun log => includes log ("Scaling a 2D object with 0") ||
               includes log ("Empty extrusion"), "DIMENSIONALITY_MIXING")]

def claimClassifySupabase (log : String) : String :=
  if log = "" then "UNKNOWN" else firstMatch log claimRulesSupabase

/-! ## OpenSCADService.compile (src/unnamed/part_005:40-117 and
src/src/services/SupabaseService.js:210-287; the two copies of `compile`
are textually identical)

The WASM compiler run is abstracted by a `CompileEnv` describing what the
external engine does during the call: how `callMain` terminates, whether the
virtual-filesystem write/read of the fixed input/output paths succeed, and
which stderr lines the run produces.  `init()` is modelled as succeeding
(its failure propagates an exception out of `compile`, which is outside the
returning paths the claims speak about). -/

inductive CallMainBehavior
  | exitStatus (status : Nat)
  | runtimeError (msg : String)
  | normalReturn
deriving DecidableEq, Repr

structure CompileEnv where
  callMain : CallMainBehavior
  writeOk : Bool
  readOk : Bool
  stderrLines : List String
deriving DecidableEq, Repr

structure SvcState where
  ready : Bool
  isDirty : Bool
  lastLogs : List String
deriving DecidableEq, Repr

inductive CompileOutcome
  | mesh (logs : String) (validationWarnings : List Finding)
  | compileError (error : String) (errorType : String) (status : Nat) (logs : String)
      (validationWarnings : List Finding)
  | execError (error : String) (logs : String)
  | caughtError (error : String) (errorType : String) (logs : String)
      (validationWarnings : List Finding)
deriving DecidableEq, Repr

def OpenSCADService.compile (scadCode : String) (env : CompileEnv) (st : SvcState) :
    CompileOutcome × SvcState :=
  -- this.lastLogs = [];
  let st1 : SvcState := { st with lastLogs := [] }
  -- if (!this.ready || this.isDirty) await this.init();  (successful init)
  let st2 : SvcState :=
    if !st1.ready || st1.isDirty then { ready := true, isDirty := false, lastLogs := [] }
    else st1
  let validation := validate scadCode
  if !env.writeOk then
    -- FS.writeFile throws -> outer catch marks dirty
    let logs := joinLines st2.lastLogs
    (CompileOutcome.caughtError "General Compilation Failure" (categorizeError logs) logs
       validation.warnings,
     { st2 with isDirty := true })
  else
    -- callMain runs; printErr accumulates the run's stderr lines
    let st3 : SvcState := { st2 with lastLogs := env.stderrLines }
    match env.callMain with
    | CallMainBehavior.exitStatus status =>
      if status ≠ 0 then
        let errorMsg := joinLines st3.lastLogs
        (CompileOutcome.compileError
           (if errorMsg = "" then "Unknown compilation error" else errorMsg)
           (categorizeError errorMsg) status errorMsg validation.warnings,
         st3)
      else if env.readOk then
        (CompileOutcome.mesh (joinLines st3.lastLogs) validation.warnings,
         { st3 with isDirty := true })
      else
        let logs := joinLines st3.lastLogs
        (CompileOutcome.caughtError "General Compilation Failure" (categorizeError logs) logs
           validation.warnings,
         { st3 with isDirty := true })
    | CallMainBehavior.runtimeError msg =>
      (CompileOutcome.execError (if msg = "" then "WASM Execution Error" else msg)
         (joinLines st3.lastLogs),
       st3)
    | CallMainBehavior.normalReturn =>
      if env.readOk then
        (CompileOutcome.mesh (joinLines st3.lastLogs) validation.warnings,
         { st3 with isDirty := true })
      else
        let logs := joinLines st3.lastLogs
        (CompileOutcome.caughtError "General Compilation Failure" (categorizeError logs) logs
           validation.warnings,
         { st3 with isDirty := true })

/-! ## ImageService.resizeImage dimension computation
(src/unnamed/part_005:176-220)

Only the pure width/height computation is modelled (the canvas drawing and
JPEG encoding are browser I/O).  JavaScript numbers are modelled as exact
rationals. -/

def computeResizeDims (width height maxWidth maxHeight : ℚ) : ℚ × ℚ :=
  if width > maxWidth ∨ height > maxHeight then
    let aspectRatio := width / height
    if width > height then (maxWidth, maxWidth / aspectRatio)
    else (maxHeight * aspectRatio, maxHeight)
  else (width, height)

/-! ## LocalDBService.deleteChat (src/src/services/LocalDBService.js:112-136) -/

structure ChatRec where
  id : String
  name : String
  description : String
  created_at : String
deriving DecidableEq, Repr

structure MessageRec where
  id : String
  chat_id : String
  role : String
  content : String
  created_at : String
deriving DecidableEq, Repr

structure LocalDB where
  chats : List ChatRec
  messages : List MessageRec
deriving DecidableEq, Repr

/-- The key-cursor walk over the `chat_id` index: delete (by primary key)
every message whose `chat_id` equals the target. -/
def deleteMessagesFor : List MessageRec → String → List MessageRec
  | [], _ => []
  | m :: ms, cid =>
    if m.chat_id = cid then deleteMessagesFor ms cid
    else m :: deleteMessagesFor ms cid

/-- `deleteChat`: one readwrite transaction over both stores that deletes
the chat record by key and cursor-deletes its messages.  The transaction is
modelled as a single state transition. -/
def deleteChat (db : LocalDB) (chatId : String) : LocalDB :=
  { chats := db.chats.filter (fun c => c.id ≠ chatId)
    messages := deleteMessagesFor db.messages chatId }

/-! ## RAGService.cosineSimilarity (src/src/services/RAGService.js:18-28)

The accumulation loop `for (let i = 0; i < vecA.length; i++)` is modelled on
paired elements.  (For unequal lengths the JavaScript loop reads past the end
of `vecB` and produces `NaN`; every property below is stated under the
equal-length condition, where the pairing is exact.)  JavaScript numbers are
modelled as reals. -/

def cosAccs : List ℝ → List ℝ → ℝ × ℝ × ℝ
  | x :: xs, y :: ys =>
    let s := cosAccs xs ys
    (s.1 + x * y, s.2.1 + x * x, s.2.2 + y * y)
  | _, _ => (0, 0, 0)

noncomputable def cosineSimilarity (vecA vecB : List ℝ) : ℝ :=
  let s := cosAccs vecA vecB
  s.1 / (Real.sqrt s.2.1 * Real.sqrt s.2.2)

/-! ## The self-healing compilation loop of runPipeline
(src/unnamed/part_002:130-167)

The loop
`while (attempts < maxAttempts && !compilationSuccess) { attempts++; ... }`
is modelled with fuel `maxAttempts - attempts` (so the top-level call uses
fuel 3 = maxAttempts).  The services are abstracted: `compile` gives the
attempt's result for a candidate source, `fixCode` gives the AI fix call's
`suggestedCode` (`none` models an absent or empty — falsy — suggestion,
which breaks the loop).  The returned trace lists every source that was
compiled, so its length is the number of compile attempts performed. -/

inductive PipeCompileRes
  | ok (stl : String)
  | err (errorType : String) (logs : String)
deriving DecidableEq, Repr

structure LoopResult where
  attempts : Nat
  compiled : List String
  finalCode : String
  compilationSuccess : Bool
deriving DecidableEq, Repr

def compileLoopAux (compile : String → PipeCompileRes)
    (fixCode : String → String → Option String) :
    Nat → Nat → String → List String → LoopResult
  | 0, attempts, code, trace =>
    { attempts := attempts, compiled := trace, finalCode := code, compilationSuccess := false }
  | fuel + 1, attempts, code, trace =>
    let attempts1 := attempts + 1
    match compile code with
    | PipeCompileRes.ok _ =>
      { attempts := attempts1, compiled := trace ++ [code], finalCode := code,
        compilationSuccess := true }
    | PipeCompileRes.err _ logs =>
      match fixCode code logs with
      | some newCode => compileLoopAux compile fixCode fuel attempts1 newCode (trace ++ [code])
      | none =>
        { attempts := attempts1, compiled := trace ++ [code], finalCode := code,
          compilationSuccess := false }

/-- The compilation loop as entered by `runPipeline`: `attempts = 0`,
`maxAttempts = 3`. -/
def runCompileLoop (compile : String → PipeCompileRes)
    (fixCode : String → String → Option String) (initialCode : String) : LoopResult :=
  compileLoopAux compile fixCode 3 0 initialCode []

/-! ## Helper lemmas -/

/-- If every compile attempt fails and every fix call suggests new code, the
loop consumes its whole fuel budget, compiling once per unit of fuel, and
ends unsuccessfully. -/
theorem compileLoopAux_all_fail
    (compile : String → PipeCompileRes) (fixCode : String → String → Option String)
    (Hc : ∀ c, ∃ t l, compile c = PipeCompileRes.err t l)
    (Hf : ∀ c l, ∃ nc, fixCode c l = some nc) :
    ∀ fuel attempts code trace,
      (compileLoopAux compile fixCode fuel attempts code trace).attempts = attempts + fuel ∧
      (compileLoopAux compile fixCode fuel attempts code trace).compiled.length =
        trace.length + fuel ∧
      (compileLoopAux compile fixCode fuel attempts code trace).compilationSuccess = false := by
  intro fuel
  induction fuel with
  | zero =>
    intro a c t
    simp [compileLoopAux]
  | succ n ih =>
    intro a c t
    obtain ⟨ty, lg, hcl⟩ := Hc c
    obtain ⟨nc, hfx⟩ := Hf c lg
    obtain ⟨hA, hL, hS⟩ := ih (a + 1) nc (t ++ [c])
    refine ⟨?_, ?_, ?_⟩ <;> simp only [compileLoopAux, hcl, hfx]
    · rw [hA]; omega
    · rw [hL]; simp only [List.length_append, List.length_cons, List.length_nil]; omega
    · exact hS

/-- The cursor-based cascade delete equals a filter on the owning-session id. -/
theorem deleteMessagesFor_eq_filter (ms : List MessageRec) (cid : String) :
    deleteMessagesFor ms cid = ms.filter (fun m => m.chat_id ≠ cid) := by
  induction ms with
  | nil => rfl
  | cons m ms ih =>
    by_cases h : m.chat_id = cid
    · simp [deleteMessagesFor, h, ih]
    · simp [deleteMessagesFor, h, ih]

/-- The epsilon check is invalid exactly when it reported errors. -/
theorem checkEpsilonUsage_valid_iff (code : String) :
    (checkEpsilonUsage code).valid = (checkEpsilonUsage code).errors.isEmpty := by
  unfold checkEpsilonUsage
  dsimp only
  split_ifs <;> rfl

/-! ## Claim C1 -/

/-- Claim C1 (confirmed): in the self-healing compilation loop of
`runPipeline`, if every compile attempt fails and every fix call returns new
suggested code, exactly 3 compile attempts are performed (never a 4th) and
the loop reports failure. -/
theorem c1_compile_loop_bound
    (compile : String → PipeCompileRes) (fixCode : String → String → Option String)
    (initialCode : String)
    (Hc : ∀ c, ∃ t l, compile c = PipeCompileRes.err t l)
    (Hf : ∀ c l, ∃ nc, fixCode c l = some nc) :
    (runCompileLoop compile fixCode initialCode).attempts = 3 ∧
    (runCompileLoop compile fixCode initialCode).compiled.length = 3 ∧
    (runCompileLoop compile fixCode initialCode).compilationSuccess = false := by
  have h := compileLoopAux_all_fail compile fixCode Hc Hf 3 0 initialCode []
  simpa [runCompileLoop] using h

/-- Witness for C1: a concrete always-failing compiler and always-suggesting
fixer compile exactly 3 times and fail. -/
theorem c1_compile_loop_bound_witness :
    (runCompileLoop (fun _ => PipeCompileRes.err "SYNTAX_ERROR" "syntax error")
        (fun c _ => some (c ++ " ")) ("cube(1);")).attempts = 3 ∧
    (runCompileLoop (fun _ => PipeCompileRes.err "SYNTAX_ERROR" "syntax error")
        (fun c _ => some (c ++ " ")) ("cube(1);")).compiled.length = 3 ∧
    (runCompileLoop (fun _ => PipeCompileRes.err "SYNTAX_ERROR" "syntax error")
        (fun c _ => some (c ++ " ")) ("cube(1);")).compilationSuccess = false :=
  c1_compile_loop_bound _ _ _
    (fun _ => ⟨"SYNTAX_ERROR", "syntax error", rfl⟩)
    (fun c _ => ⟨c ++ " ", rfl⟩)

/-! ## Claim C7 -/

/-- Claim C7 (confirmed): deleting a session removes the session record and
every message whose owning-session id matches it (the whole deletion is a
single transition of the store, modelling the one atomic transaction), and
leaves the messages of every other session untouched. -/
theorem c7_delete_cascade (db : LocalDB) (cid : String) :
    (deleteChat db cid).chats = db.chats.filter (fun c => c.id ≠ cid) ∧
    (deleteChat db cid).messages = db.messages.filter (fun m => m.chat_id ≠ cid) ∧
    (∀ m, m ∈ db.messages → m.chat_id ≠ cid → m ∈ (deleteChat db cid).messages) ∧
    (∀ m, m ∈ (deleteChat db cid).messages → m.chat_id ≠ cid ∧ m ∈ db.messages) ∧
    (∀ c, c ∈ (deleteChat db cid).chats → c.id ≠ cid) := by
  refine ⟨rfl, deleteMessagesFor_eq_filter db.messages cid, ?_, ?_, ?_⟩
  · intro m hm hne
    simp [deleteChat, deleteMessagesFor_eq_filter, List.mem_filter, hm, hne]
  · intro m hm
    simp only [deleteChat, deleteMessagesFor_eq_filter, List.mem_filter,
      decide_eq_true_eq] at hm
    exact ⟨hm.2, hm.1⟩
  · intro c hc
    simp only [deleteChat, List.mem_filter, decide_eq_true_eq] at hc
    exact hc.2

def c7db : LocalDB :=
  { chats := [⟨"c1", "Bracket", "mounting bracket", "t1"⟩,
              ⟨"c2", "Gear", "spur gear", "t2"⟩]
    messages := [⟨"m1", "c1", "user", "make a bracket", "t1"⟩,
                 ⟨"m2", "c2", "user", "make a gear", "t2"⟩,
                 ⟨"m3", "c1", "ai", "done", "t3"⟩] }

/-- Witness for C7 at a concrete two-session store. -/
theorem c7_delete_cascade_witness :
    (deleteChat c7db "c1").messages = c7db.messages.filter (fun m => m.chat_id ≠ "c1") :=
  (c7_delete_cascade c7db "c1").2.1

/-! ## Claim C8 -/

/-- Claim C8 (confirmed): `validate` is a total function assembling the
`{valid, warnings, errors}` result from the five checks — each check is
itself total on every text input (totality is enforced by the embedding:
every matcher is structurally or fuel-bounded recursive) — with `errors`
coming only from the epsilon check; moreover `valid` is true exactly when
the error list is empty. -/
theorem c8_validate_total (code : String) :
    validate code =
      { valid := (checkEpsilonUsage code).valid
        warnings := (checkEpsilonUsage code).warnings ++ checkDimensions code ++
                    checkBooleanNesting code ++ checkFnSpecification code ++
                    checkDimensionality code
        errors := (checkEpsilonUsage code).errors } ∧
    (validate code).valid = (validate code).errors.isEmpty :=
  ⟨rfl, checkEpsilonUsage_valid_iff code⟩

/-! ## Claim C9 -/

/-- Claim C9 (confirmed): `suggestFixes` only ever prepends text — the
original code is a suffix of the returned `fixedCode` — and when the
validation result has no `MISSING_EPSILON_DEFINITION` error and no
`MISSING_FN` warning, the code is returned unchanged with an empty fix
list. -/
theorem c9_suggest_fixes (code : String) (vr : ValidationResult) :
    (∃ p : String, ((suggestFixes code vr).fixedCode).data = p.data ++ code.data) ∧
    (vr.errors.any (fun e => e.type = "MISSING_EPSILON_DEFINITION") = false →
     vr.warnings.any (fun w => w.type = "MISSING_FN") = false →
     (suggestFixes code vr).fixedCode = code ∧ (suggestFixes code vr).fixes = []) := by
  constructor
  · unfold suggestFixes
    dsimp only
    split_ifs with h1 h2 h2
    · exact ⟨"$fn = 50;\n" ++ "eps = 0.01;\n\n", by simp [String.data_append]⟩
    · exact ⟨"$fn = 50;\n", by simp [String.data_append]⟩
    · exact ⟨"eps = 0.01;\n\n", by simp [String.data_append]⟩
    · exact ⟨"", by simp⟩
  · intro he hf
    unfold suggestFixes
    simp [he, hf]

/-! ## Claim C2 -/

/-- A source that contains a `difference() {` block and no assignment to a
variable named `eps`, but does contain `steps = 5;` — whose tail matches the
unanchored epsilon-definition pattern `/eps\s*=\s*[\d.]+\s*;/`. -/
def c2cex : String := "difference() \x7b cube(1); \x7d\nsteps = 5;"

/-- Counterexample to claim C2 as stated: `c2cex` contains a
`difference() { ... }` block and no assignment to a variable named `eps`,
yet `validate` returns `valid = true` with no errors (the substring
`eps = 5;` of `steps = 5;` satisfies the definition regex, which has no
word boundary). -/
theorem c2_counterexample :
    testDiffBlock c2cex.data = true ∧
    (validate c2cex).valid = true ∧ (validate c2cex).errors = [] := by decide

/-- Claim C2 (amended): for every source text in which the pattern
`difference ( ) {` (optional whitespace between tokens) occurs and **no
substring** matches the epsilon-definition pattern
`eps = <digits/dots> ;` — the pattern is not word-anchored, so e.g.
`steps = 5;` counts as an epsilon definition — `validate` returns
`valid = false` with exactly one error, of kind
`MISSING_EPSILON_DEFINITION`. -/
theorem c2_missing_epsilon (code : String)
    (hdiff : testDiffBlock code.data = true)
    (heps : testEpsDef code.data = false) :
    (validate code).valid = false ∧
    (validate code).errors.map Finding.type = ["MISSING_EPSILON_DEFINITION"] := by
  simp [validate, checkEpsilonUsage, hdiff, heps]

/-- The validator test harness's own "Missing epsilon in difference"
sample. -/
def c2wit : String := "difference() \x7b cube(10); translate([0,0,10]) cube(10); \x7d"

/-- Witness for the amended C2 at the harness sample. -/
theorem c2_missing_epsilon_witness :
    (validate c2wit).valid = false ∧
    (validate c2wit).errors.map Finding.type = ["MISSING_EPSILON_DEFINITION"] :=
  c2_missing_epsilon c2wit (by decide) (by decide)

/-! ## Claim C3 -/

/-- A run in which the compiler exits with status 1 (a classified compile
failure), starting from a ready, clean service. -/
def c3env : CompileEnv :=
  { callMain := CallMainBehavior.exitStatus 1, writeOk := true, readOk := true,
    stderrLines := ["syntax error"] }

def c3st : SvcState := { ready := true, isDirty := false, lastLogs := [] }

/-- Counterexample to claim C3 as stated: a compile call that returns a
classified compile failure (non-zero exit status) leaves the dirty flag
`false` — the early `return` inside the `catch` skips the
`this.isDirty = true` marking, so the next compile reuses the instance. -/
theorem c3_counterexample :
    ((OpenSCADService.compile ("cube(1);") c3env c3st).2).isDirty = false ∧
    (OpenSCADService.compile ("cube(1);") c3env c3st).1 =
      CompileOutcome.compileError "syntax error" "SYNTAX_ERROR" 1 "syntax error" [] := by
  decide

/-- Claim C3 (amended): the dirty flag is set after a compile that returns
a mesh (and after an exception escaping the filesystem write/read steps),
but a classified compile failure (non-zero exit status) and a WASM
execution error return with the dirty flag still clear, so the next compile
call reuses the instance instead of reinitializing. -/
theorem c3_dirty_flag (scadCode : String) (env : CompileEnv) (st : SvcState) :
    (env.writeOk = false →
      ((OpenSCADService.compile scadCode env st).2).isDirty = true) ∧
    (env.writeOk = true → env.callMain = CallMainBehavior.exitStatus 0 →
      ((OpenSCADService.compile scadCode env st).2).isDirty = true) ∧
    (env.writeOk = true → env.callMain = CallMainBehavior.normalReturn →
      ((OpenSCADService.compile scadCode env st).2).isDirty = true) ∧
    (∀ s, s ≠ 0 → env.writeOk = true → env.callMain = CallMainBehavior.exitStatus s →
      ((OpenSCADService.compile scadCode env st).2).isDirty = false) ∧
    (∀ msg, env.writeOk = true → env.callMain = CallMainBehavior.runtimeError msg →
      ((OpenSCADService.compile scadCode env st).2).isDirty = false) := by
  obtain ⟨cm, w, r, lines⟩ := env
  obtain ⟨rdy, dty, ll⟩ := st
  refine ⟨?_, ?_, ?_, ?_, ?_⟩
  · intro hw
    subst hw
    cases rdy <;> cases dty <;> simp [OpenSCADService.compile]
  · intro hw hcm
    subst hw
    dsimp only at hcm
    subst hcm
    cases rdy <;> cases dty <;> cases r <;> simp [OpenSCADService.compile]
  · intro hw hcm
    subst hw
    dsimp only at hcm
    subst hcm
    cases rdy <;> cases dty <;> cases r <;> simp [OpenSCADService.compile]
  · intro s hs hw hcm
    subst hw
    dsimp only at hcm
    subst hcm
    cases rdy <;> cases dty <;> simp [OpenSCADService.compile, hs]
  · intro msg hw hcm
    subst hw
    dsimp only at hcm
    subst hcm
    cases rdy <;> cases dty <;> simp [OpenSCADService.compile]

/-- A run whose filesystem write fails (outer catch path). -/
def c3envW : CompileEnv :=
  { callMain := CallMainBehavior.normalReturn, writeOk := false, readOk := true,
    stderrLines := [] }

/-- Witness for the amended C3: the outer-catch path does set the dirty
flag. -/
theorem c3_dirty_flag_witness :
    ((OpenSCADService.compile ("cube(1);") c3envW c3st).2).isDirty = true :=
  (c3_dirty_flag ("cube(1);") c3envW c3st).1 rfl

/-! ## Claim C4 -/

/-- Counterexample to claim C4 as stated: on the log text
`"Scaling a 2D object with 0"` the SupabaseService variant of the
classifier (cited by the claim) returns `DIMENSIONALITY_MIXING`, while the
claim's enumeration — which ends `..., FILE_NOT_FOUND, else GENERAL_ERROR`
— requires `GENERAL_ERROR`. -/
theorem c4_counterexample :
    categorizeErrorSupabase ("Scaling a 2D object with 0") = "DIMENSIONALITY_MIXING" ∧
    claimClassify ("Scaling a 2D object with 0") = "GENERAL_ERROR" := by decide

/-- Claim C4 (amended): both classifier variants return the first matching
kind of their ordered enumeration — `CGAL_ASSERTION_VIOLATION,
EMPTY_GEOMETRY, NON_MANIFOLD, SYNTAX_ERROR, UNDEFINED_VARIABLE,
FILE_NOT_FOUND`, then (in the SupabaseService variant only)
`DIMENSIONALITY_MIXING`, else `GENERAL_ERROR` — with an empty or absent
log yielding `UNKNOWN`; each fixed trigger phrase yields its corresponding
kind. -/
theorem c4_classifier_order :
    (∀ log, categorizeError log = claimClassify log) ∧
    (∀ log, categorizeErrorSupabase log = claimClassifySupabase log) ∧
    categorizeError "" = "UNKNOWN" ∧
    categorizeError ("Current top level object is empty") = "EMPTY_GEOMETRY" ∧
    categorizeError ("WARNING: Object may not be a valid 2-manifold and may need repair! non-manifold") = "NON_MANIFOLD" ∧
    categorizeError ("ERROR: Parser error: syntax error in file input.scad") = "SYNTAX_ERROR" ∧
    categorizeError ("CGAL error: assertion violation!") = "CGAL_ASSERTION_VIOLATION" ∧
    categorizeError ("WARNING: unknown variable x") = "UNDEFINED_VARIABLE" ∧
    categorizeError ("ERROR: Can't open include file bosl2/std.scad") = "FILE_NOT_FOUND" ∧
    categorizeError ("something inexplicable") = "GENERAL_ERROR" := by
  refine ⟨fun log => rfl, fun log => rfl, ?_, ?_, ?_, ?_, ?_, ?_, ?_, ?_⟩ <;> decide

/-! ## Claim C5 -/

/-- A line contains at least one boolean-operation opening substring
(`difference(`, `union(`, `intersection(`) — exactly the per-line trigger of
the depth walk. -/
def opensBoolean (line : List Char) : Bool :=
  booleanOpsOpen.any (fun op => isInfixL op line)

/-- One depth-walk step over a line that opens a boolean block and closes
nothing: the depth strictly grows and the running maximum reaches it. -/
theorem nestLineStep_open (l : List Char) (st : Nat × Nat)
    (ho : opensBoolean l = true) (hc : l.count '}' = 0) :
    st.1 + 1 ≤ (nestLineStep st l).1 ∧ (nestLineStep st l).1 ≤ (nestLineStep st l).2 ∧
    st.2 ≤ (nestLineStep st l).2 := by
  obtain ⟨c, m⟩ := st
  revert ho
  unfold opensBoolean nestLineStep nestOpsFold
  cases hb1 : isInfixL (("difference(").data) l <;>
    cases hb2 : isInfixL (("union(").data) l <;>
      cases hb3 : isInfixL (("intersection(").data) l <;>
        simp [booleanOpsOpen, hb1, hb2, hb3, hc]

/-- The running maximum never decreases across a line. -/
theorem nestLineStep_max_mono (st : Nat × Nat) (l : List Char) :
    st.2 ≤ (nestLineStep st l).2 := by
  obtain ⟨c, m⟩ := st
  unfold nestLineStep nestOpsFold
  cases hb1 : isInfixL (("difference(").data) l <;>
    cases hb2 : isInfixL (("union(").data) l <;>
      cases hb3 : isInfixL (("intersection(").data) l <;>
        simp [booleanOpsOpen, hb1, hb2, hb3]

/-- The running maximum never decreases across the whole walk. -/
theorem nestFold_max_mono (lines : List (List Char)) :
    ∀ st : Nat × Nat, st.2 ≤ (List.foldl nestLineStep st lines).2 := by
  induction lines with
  | nil => intro st; simp
  | cons l ls ih => intro st; exact le_trans (nestLineStep_max_mono st l) (ih _)

/-- The validator test harness's own "Deep nesting" sample: 4 sequentially
nested boolean blocks, all on one line. -/
def c5cex : String :=
  "difference() \x7b union() \x7b difference() \x7b union() \x7b cube(); \x7d \x7d \x7d \x7d"

/-- Counterexample to claim C5 as stated: `c5cex` nests 4 boolean blocks
(each opened before the previous closes), yet no `DEEP_BOOLEAN_NESTING`
warning is emitted — a line increments the depth at most once per distinct
operation name it contains, so the walk only reaches depth 2 here. -/
theorem c5_counterexample :
    maxNestDepth c5cex = 2 ∧
    "DEEP_BOOLEAN_NESTING" ∉ (validate c5cex).warnings.map Finding.type := by decide

/-- Claim C5 (amended): if the source splits into lines whose first four
each contain a boolean-operation opening (`difference(`, `union(` or
`intersection(`) and no closing brace, the depth walk reaches 4 and
`validate` emits a `DEEP_BOOLEAN_NESTING` warning.  (As stated the claim is
false in both directions: 4 nested blocks written on one line may be
missed, and the walk counts each line once per distinct operation name, not
true nesting.) -/
theorem c5_deep_nesting (code : String) (l1 l2 l3 l4 : List Char) (rest : List (List Char))
    (hsplit : splitLines code.data = l1 :: l2 :: l3 :: l4 :: rest)
    (h1 : opensBoolean l1 = true) (hc1 : l1.count '}' = 0)
    (h2 : opensBoolean l2 = true) (hc2 : l2.count '}' = 0)
    (h3 : opensBoolean l3 = true) (hc3 : l3.count '}' = 0)
    (h4 : opensBoolean l4 = true) (hc4 : l4.count '}' = 0) :
    "DEEP_BOOLEAN_NESTING" ∈ (validate code).warnings.map Finding.type := by
  have H1 := nestLineStep_open l1 (0, 0) h1 hc1
  have H2 := nestLineStep_open l2 (nestLineStep (0, 0) l1) h2 hc2
  have H3 := nestLineStep_open l3 (nestLineStep (nestLineStep (0, 0) l1) l2) h3 hc3
  have H4 := nestLineStep_open l4
    (nestLineStep (nestLineStep (nestLineStep (0, 0) l1) l2) l3) h4 hc4
  have Hm := nestFold_max_mono rest
    (nestLineStep (nestLineStep (nestLineStep (nestLineStep (0, 0) l1) l2) l3) l4)
  dsimp only at H1
  have hmax : 3 < maxNestDepth code := by
    unfold maxNestDepth
    rw [hsplit]
    simp only [List.foldl_cons]
    omega
  have htype : (checkBooleanNesting code).map Finding.type = ["DEEP_BOOLEAN_NESTING"] := by
    simp only [checkBooleanNesting]
    rw [if_pos hmax]
    rfl
  have hmem : "DEEP_BOOLEAN_NESTING" ∈ (checkBooleanNesting code).map Finding.type := by
    rw [htype]
    exact List.mem_singleton.mpr rfl
  simp only [validate, List.map_append, List.mem_append]
  tauto

/-- A 4-line rewrite of the deep-nesting sample: one opening per line. -/
def c5wit : String :=
  "difference() \x7b\nunion() \x7b\nintersection() \x7b\ndifference() \x7b\ncube(1);\n\x7d \x7d \x7d \x7d"

/-- Witness for the amended C5. -/
theorem c5_deep_nesting_witness :
    "DEEP_BOOLEAN_NESTING" ∈ (validate c5wit).warnings.map Finding.type :=
  c5_deep_nesting c5wit
    (("difference() \x7b").data) (("union() \x7b").data)
    (("intersection() \x7b").data) (("difference() \x7b").data)
    [("cube(1);").data, ("\x7d \x7d \x7d \x7d").data]
    (by decide) (by decide) (by decide) (by decide) (by decide)
    (by decide) (by decide) (by decide) (by decide)

/-! ## Claim C6 -/

/-- Counterexample to claim C6 as stated: with independent limits
`maxWidth = 1024, maxHeight = 50`, a 100×99 image (within the width limit,
over the height limit, wider than tall) is resized to width `maxWidth`:
the output width 1024 exceeds the input width (the image is enlarged) and
the output height 1013.76 exceeds `maxHeight`. -/
theorem c6_counterexample :
    (computeResizeDims 100 99 1024 50).1 = 1024 ∧
    (computeResizeDims 100 99 1024 50).2 = 25344 / 25 ∧
    50 < (computeResizeDims 100 99 1024 50).2 ∧
    100 < (computeResizeDims 100 99 1024 50).1 := by
  norm_num [computeResizeDims]

/-- Claim C6 (amended): whenever the two limits are equal (as in every
actual call — both default to 1024) and positive, the resize computation
preserves the aspect ratio, keeps both output dimensions within the limit,
and only shrinks, never enlarges; an image already within both limits keeps
its dimensions (aspect-ratio preservation is stated division-free as
`outWidth * height = outHeight * width`).  (With unequal limits the
`width > height` branch only honours the width limit, and dually, so the claim fails as stated.) -/
theorem c6_resize_shrinks (w h m : ℚ) (hw : 0 < w) (hh : 0 < h) (hm : 0 < m) :
    (computeResizeDims w h m m).1 ≤ m ∧ (computeResizeDims w h m m).2 ≤ m ∧
    (computeResizeDims w h m m).1 ≤ w ∧ (computeResizeDims w h m m).2 ≤ h ∧
    (computeResizeDims w h m m).1 * h = (computeResizeDims w h m m).2 * w ∧
    (w ≤ m → h ≤ m → computeResizeDims w h m m = (w, h)) := by
  unfold computeResizeDims
  by_cases hc : w > m ∨ h > m
  · rw [if_pos hc]
    have hkeep : w ≤ m → h ≤ m → False := by
      intro h1 h2
      rcases hc with h3 | h3 <;> linarith
    by_cases hwh : w > h
    · rw [if_pos hwh]
      have hmw : m < w := by
        rcases hc with h1 | h1
        · exact h1
        · exact lt_trans h1 hwh
      have hdiv : (1 : ℚ) ≤ w / h := le_of_lt ((one_lt_div hh).mpr hwh)
      have hwpos : (0 : ℚ) < w / h := lt_of_lt_of_le one_pos hdiv
      refine ⟨le_refl m, ?_, le_of_lt hmw, ?_, ?_, fun h1 h2 => (hkeep h1 h2).elim⟩
      · rw [div_le_iff hwpos]
        exact le_mul_of_one_le_right (le_of_lt hm) hdiv
      · rw [div_div_eq_mul_div, div_le_iff hw]
        nlinarith
      · rw [div_div_eq_mul_div, div_mul_cancel₀ (m * h) (ne_of_gt hw)]
    · rw [if_neg hwh]
      push_neg at hwh
      have hmh : m < h := by
        rcases hc with h1 | h1
        · exact lt_of_lt_of_le h1 hwh
        · exact h1
      have hdiv : w / h ≤ 1 := (div_le_one hh).mpr hwh
      refine ⟨?_, le_refl m, ?_, le_of_lt hmh, ?_, fun h1 h2 => (hkeep h1 h2).elim⟩
      · exact mul_le_of_le_one_right (le_of_lt hm) hdiv
      · rw [← mul_div_assoc, div_le_iff hh]
        nlinarith
      · rw [mul_assoc, div_mul_cancel₀ w (ne_of_gt hh)]
  · rw [if_neg hc]
    push_neg at hc
    exact ⟨hc.1, hc.2, le_refl w, le_refl h, mul_comm w h, fun _ _ => rfl⟩

/-- Witness for the amended C6: a 2000×1000 image under the default
1024×1024 limits. -/
theorem c6_resize_shrinks_witness :
    (computeResizeDims 2000 1000 1024 1024).1 ≤ 1024 ∧
    (computeResizeDims 2000 1000 1024 1024).2 ≤ 1024 ∧
    (computeResizeDims 2000 1000 1024 1024).1 ≤ 2000 ∧
    (computeResizeDims 2000 1000 1024 1024).2 ≤ 1000 ∧
    (computeResizeDims 2000 1000 1024 1024).1 * 1000 =
      (computeResizeDims 2000 1000 1024 1024).2 * 2000 ∧
    ((2000 : ℚ) ≤ 1024 → (1000 : ℚ) ≤ 1024 →
      computeResizeDims 2000 1000 1024 1024 = (2000, 1000)) :=
  c6_resize_shrinks 2000 1000 1024 (by norm_num) (by norm_num) (by norm_num)

/-! ## Claim C10 -/

/-- Swapping the argument vectors swaps the two norm accumulators and keeps
the dot product. -/
theorem cosAccs_swap (a : List ℝ) : ∀ b : List ℝ,
    cosAccs b a = ((cosAccs a b).1, (cosAccs a b).2.2, (cosAccs a b).2.1) := by
  induction a with
  | nil => intro b; cases b <;> simp [cosAccs]
  | cons x xs ih =>
    intro b
    cases b with
    | nil => simp [cosAccs]
    | cons y ys =>
      simp only [cosAccs, ih ys]
      exact Prod.ext (by ring) (Prod.ext rfl rfl)

/-- Claim C10 (confirmed): cosine similarity is symmetric on equal-length
vectors. -/
theorem c10_cosine_symm (vecA vecB : List ℝ) (h : vecA.length = vecB.length) :
    cosineSimilarity vecA vecB = cosineSimilarity vecB vecA := by
  unfold cosineSimilarity
  rw [cosAccs_swap vecA vecB]
  dsimp only
  rw [mul_comm]

/-- Witness for C10 at two concrete orthogonal vectors. -/
theorem c10_cosine_symm_witness :
    cosineSimilarity [1, 0] [0, 1] = cosineSimilarity [0, 1] [1, 0] :=
  c10_cosine_symm _ _ rfl

/-- Witness for C9: an all-clear validation result leaves the code
untouched. -/
theorem c9_suggest_fixes_witness :
    (suggestFixes ("cube(1);") ⟨true, [], []⟩).fixedCode = "cube(1);" ∧
    (suggestFixes ("cube(1);") ⟨true, [], []⟩).fixes = [] :=
  (c9_suggest_fixes ("cube(1);") ⟨true, [], []⟩).2 rfl rfl

/-! ## Exactness of the dimension-threshold predicates

These two lemmas justify that the kernel-computable `Nat` comparisons used
by `checkDimensions` coincide with the source's `n > 0 && n < 0.01` and
`n > 10000` on the literal's exact value. -/

theorem NumLit.isTooSmall_iff (n : NumLit) :
    n.isTooSmall = true ↔ 0 < n.val ∧ n.val < 1 / 100 := by
  unfold NumLit.isTooSmall NumLit.val
  simp only [Bool.and_eq_true, decide_eq_true_eq]
  constructor
  · rintro ⟨⟨hpos, hzero⟩, hlt⟩
    rw [hzero]
    push_cast
    simp only [zero_add]
    constructor
    · positivity
    · rw [div_lt_div_iff (by positivity) (by norm_num)]
      push_cast at hlt ⊢
      calc (n.fracNum : ℚ) * 100 = 100 * n.fracNum := by ring
        _ < 10 ^ n.fracLen := by exact_mod_cast hlt
        _ = 1 * 10 ^ n.fracLen := by ring
  · rintro ⟨hpos, hlt⟩
    have hi : n.int = 0 := by
      by_contra hne
      have h1 : (1 : ℚ) ≤ (n.int : ℚ) := by exact_mod_cast Nat.one_le_iff_ne_zero.mpr hne
      have h2 : (0 : ℚ) ≤ (n.fracNum : ℚ) / 10 ^ n.fracLen := by positivity
      have : (1 : ℚ) / 100 < 1 := by norm_num
      linarith
    refine ⟨⟨?_, hi⟩, ?_⟩
    · rw [hi] at hpos
      push_cast at hpos
      simp only [zero_add] at hpos
      have hq : (0 : ℚ) < (n.fracNum : ℚ) := by
        by_contra hle
        push_neg at hle
        have : (n.fracNum : ℚ) / 10 ^ n.fracLen ≤ 0 := by
          apply div_nonpos_of_nonpos_of_nonneg hle
          positivity
        linarith
      exact_mod_cast hq
    · rw [hi] at hlt
      push_cast at hlt
      simp only [zero_add] at hlt
      rw [div_lt_div_iff (by positivity) (by norm_num)] at hlt
      have : (100 : ℚ) * n.fracNum < 10 ^ n.fracLen := by linarith
      exact_mod_cast this

theorem NumLit.isTooLarge_iff (n : NumLit) (hf : n.fracNum < 10 ^ n.fracLen) :
    n.isTooLarge = true ↔ 10000 < n.val := by
  unfold NumLit.isTooLarge NumLit.val
  simp only [Bool.or_eq_true, Bool.and_eq_true, decide_eq_true_eq]
  have hfrac_nonneg : (0 : ℚ) ≤ (n.fracNum : ℚ) / 10 ^ n.fracLen := by positivity
  have hfrac_lt_one : (n.fracNum : ℚ) / 10 ^ n.fracLen < 1 := by
    rw [div_lt_one (by positivity)]
    exact_mod_cast hf
  constructor
  · rintro (hgt | ⟨heq, hpos⟩)
    · have : (10001 : ℚ) ≤ (n.int : ℚ) := by exact_mod_cast hgt
      linarith
    · rw [heq]
      have : (0 : ℚ) < (n.fracNum : ℚ) / 10 ^ n.fracLen := by
        apply div_pos _ (by positivity)
        exact_mod_cast hpos
      push_cast
      linarith
  · intro hgt
    by_cases hcase : 10000 < n.int
    · exact Or.inl hcase
    · push_neg at hcase
      have hle : (n.int : ℚ) ≤ 10000 := by exact_mod_cast hcase
      have hi : n.int = 10000 := by
        by_contra hne
        have : n.int ≤ 9999 := by omega
        have h9 : (n.int : ℚ) ≤ 9999 := by exact_mod_cast this
        linarith
      refine Or.inr ⟨hi, ?_⟩
      rw [hi] at hgt
      push_cast at hgt
      have : (0 : ℚ) < (n.fracNum : ℚ) / 10 ^ n.fracLen := by linarith
      have hq : (0 : ℚ) < (n.fracNum : ℚ) := by
        by_contra hle2
        push_neg at hle2
        have : (n.fracNum : ℚ) / 10 ^ n.fracLen ≤ 0 :=
          div_nonpos_of_nonpos_of_nonneg hle2 (by positivity)
        linarith
      exact_mod_cast hq
